import Mathlib

/-
  Verification development for the AION repository: shallow embedding of the
  Hugging Face / Cloudflare REST client helpers (src/aion/exceptions.py,
  src/aion/cloudflare_client.py, src/aion/huggingface_client.py,
  src/aion/spaces_client.py) and proofs about the behaviour the specification
  describes.

  Modelling conventions:
  - JSON numbers are modelled as integers; no claim involves floating-point
    literals, which are outside the model.
  - HTTP response bodies are modelled as UTF-8 text (`String`); the clients
    decode every body as UTF-8 before inspecting it.
  - The network is a pure function from the request a client builds to an
    outcome; each operation returns, alongside its result, the list of
    requests it actually issued, so "no network call" is `[]`.
-/

set_option maxHeartbeats 1000000

/-- JSON values as produced by Python's `json.loads`.  Objects keep the dict's
insertion order and have unique keys (a duplicate key in the source text
overwrites in place, as a Python dict does). -/
inductive Json where
  | null : Json
  | bool : Bool → Json
  | num : Int → Json
  | str : String → Json
  | arr : List Json → Json
  | obj : List (String × Json) → Json
deriving Repr

/-- Python truthiness of a decoded JSON value (`bool(x)`). -/
def Json.truthy : Json → Bool
  | .null => false
  | .bool b => b
  | .num n => n != 0
  | .str s => s != ""
  | .arr xs => !xs.isEmpty
  | .obj kvs => !kvs.isEmpty

/-- Dict lookup: first (unique) binding of `key`, as `d[key]` / `d.get(key)`. -/
def jLookup : List (String × Json) → String → Option Json
  | [], _ => none
  | (k, v) :: rest, key => if k = key then some v else jLookup rest key

/-- `d.get(key, default)` on a Python dict. -/
def jGetD (kvs : List (String × Json)) (key : String) (default : Json) : Json :=
  match jLookup kvs key with
  | some v => v
  | none => default

/-- Prepend the object member `k : v` to the already-deduplicated later
members `rest`: the key keeps its first position, a later duplicate's value
wins, as in a Python dict built left to right. -/
def objCons (k : String) (v : Json) (rest : List (String × Json)) : List (String × Json) :=
  match jLookup rest k with
  | some v' => (k, v') :: rest.filter (fun kv => !(kv.1 == k))
  | none => (k, v) :: rest

/-- One lowercase hex digit. -/
def hexDigitLower (n : Nat) : Char :=
  if n < 10 then Char.ofNat (48 + n) else Char.ofNat (87 + n)

/-- One uppercase hex digit. -/
def hexDigitUpper (n : Nat) : Char :=
  if n < 10 then Char.ofNat (48 + n) else Char.ofNat (55 + n)

/-- Two-digit lowercase hex rendering of a byte value. -/
def hex2Lower (n : Nat) : String :=
  String.singleton (hexDigitLower (n / 16 % 16)) ++ String.singleton (hexDigitLower (n % 16))

/-- Two-digit uppercase hex rendering of a byte value. -/
def hex2Upper (n : Nat) : String :=
  String.singleton (hexDigitUpper (n / 16 % 16)) ++ String.singleton (hexDigitUpper (n % 16))

/-- Escaping of one character inside a Python string `repr`, given the chosen
surrounding quote character. -/
def pyReprCharEsc (q : Char) (c : Char) : String :=
  if c = '\\' then "\\\\"
  else if c = q then "\\" ++ String.singleton q
  else if c = '\n' then "\\n"
  else if c = '\r' then "\\r"
  else if c = '\t' then "\\t"
  else if c.toNat < 32 || c.toNat == 127 then "\\x" ++ hex2Lower c.toNat
  else String.singleton c

/-- Python `repr` of a string: single quotes unless the string contains a
single quote and no double quote. -/
def pyReprStr (s : String) : String :=
  let q : Char :=
    if s.data.contains (Char.ofNat 39) && !s.data.contains '"' then '"' else Char.ofNat 39
  String.singleton q ++ String.join (s.data.map (pyReprCharEsc q)) ++ String.singleton q

mutual

/-- Python `repr` of a decoded JSON value (the rendering `str` uses for the
elements of containers). -/
def pyRepr : Json → String
  | .null => "None"
  | .bool b => if b then "True" else "False"
  | .num n => toString n
  | .str s => pyReprStr s
  | .arr xs => "[" ++ String.intercalate ", " (pyReprList xs) ++ "]"
  | .obj kvs => "\x7b" ++ String.intercalate ", " (pyReprObj kvs) ++ "\x7d"

/-- `repr` of each element of a list. -/
def pyReprList : List Json → List String
  | [] => []
  | x :: xs => pyRepr x :: pyReprList xs

/-- `repr` of each `key: value` entry of a dict. -/
def pyReprObj : List (String × Json) → List String
  | [] => []
  | (k, v) :: rest => (pyReprStr k ++ ": " ++ pyRepr v) :: pyReprObj rest

end

/-- Python `str` of a decoded JSON value: a string renders as itself, every
other value as its `repr`. -/
def pyStr : Json → String
  | .str s => s
  | v => pyRepr v

/-- Bytes that `urllib.parse.quote` never escapes: ASCII letters, digits and
`_.-~`. -/
def alwaysSafeByte (b : UInt8) : Bool :=
  (65 ≤ b && b ≤ 90) || (97 ≤ b && b ≤ 122) || (48 ≤ b && b ≤ 57) ||
    b == 95 || b == 46 || b == 45 || b == 126

/-- The UTF-8 bytes of a string. -/
def strBytes (s : String) : List UInt8 :=
  s.data.flatMap String.utf8EncodeChar

/-- `urllib.parse.quote(s, safe=safe)`: percent-encode the UTF-8 bytes of `s`,
leaving the always-safe bytes and the ASCII characters of `safe` unescaped.
Hex digits are uppercase, as in CPython. -/
def pyQuote (s : String) (safe : String) : String :=
  String.join <| (strBytes s).map fun b =>
    if alwaysSafeByte b || (b < 128 && safe.data.contains (Char.ofNat b.toNat)) then
      String.singleton (Char.ofNat b.toNat)
    else
      "%" ++ hex2Upper b.toNat

/-- `urllib.parse.quote_plus(s, safe=safe)`: like `quote` but a space becomes
`+`. -/
def pyQuotePlus (s : String) (safe : String) : String :=
  String.join <| (strBytes s).map fun b =>
    if b == 32 then "+"
    else if alwaysSafeByte b || (b < 128 && safe.data.contains (Char.ofNat b.toNat)) then
      String.singleton (Char.ofNat b.toNat)
    else
      "%" ++ hex2Upper b.toNat

/-- `urllib.parse.urlencode(params)` over string-valued parameters in dict
insertion order (the default `quote_via=quote_plus`, `safe=""`). -/
def urlencode (params : List (String × String)) : String :=
  String.intercalate "&" <| params.map fun kv =>
    pyQuotePlus kv.1 "" ++ "=" ++ pyQuotePlus kv.2 ""

/-- `urllib.parse.urlencode(params, doseq=True)`: a parameter bound to a
sequence of values produces one `key=value` pair per element; a parameter
bound to a plain string (modelled as a one-element sequence) produces one
pair. -/
def urlencodeDoseq (params : List (String × List String)) : String :=
  String.intercalate "&" <| params.flatMap fun kv =>
    kv.2.map fun v => pyQuotePlus kv.1 "" ++ "=" ++ pyQuotePlus v ""

/-- `path.lstrip("/")`. -/
def lstripSlash (s : String) : String := String.mk (s.data.dropWhile (· == '/'))

/-- `s.upper()` over ASCII method names. -/
def pyUpper (s : String) : String := String.mk (s.data.map Char.toUpper)

/-- Infix test on lists, used to state that a URL contains a substring. -/
def listIsInfix (pat : List Char) (l : List Char) : Bool :=
  pat.isPrefixOf l || (match l with | [] => false | _ :: rest => listIsInfix pat rest)

/-- JSON whitespace characters recognised by Python's parser. -/
def skipWs : List Char → List Char
  | c :: cs => if c == ' ' || c == '\t' || c == '\n' || c == '\r' then skipWs cs else c :: cs
  | [] => []

/-- Hex digit value of a character, if any. -/
def hexVal (c : Char) : Option Nat :=
  if '0' ≤ c && c ≤ '9' then some (c.toNat - 48)
  else if 'a' ≤ c && c ≤ 'f' then some (c.toNat - 87)
  else if 'A' ≤ c && c ≤ 'F' then some (c.toNat - 55)
  else none

/-- Four hex digits of a `\uXXXX` escape. -/
def parseHex4 : List Char → Option (Nat × List Char)
  | a :: b :: c :: d :: rest =>
    match hexVal a, hexVal b, hexVal c, hexVal d with
    | some x, some y, some z, some w => some (((x * 16 + y) * 16 + z) * 16 + w, rest)
    | _, _, _, _ => none
  | _ => none

/-- Body of a JSON string literal, after the opening quote.  Raw control
characters below 0x20 are rejected, as in Python's strict mode.  Surrogate
pairs in `\u` escapes are outside the model. -/
def parseStringBody (fuel : Nat) (cs : List Char) : Option (String × List Char) :=
  match fuel, cs with
  | 0, _ => none
  | _, [] => none
  | fuel + 1, c :: rest =>
    if c == '"' then some ("", rest)
    else if c == '\\' then
      match rest with
      | [] => none
      | e :: rest' =>
        let esc : Option (Char × List Char) :=
          if e == '"' then some ('"', rest')
          else if e == '\\' then some ('\\', rest')
          else if e == '/' then some ('/', rest')
          else if e == 'b' then some (Char.ofNat 8, rest')
          else if e == 'f' then some (Char.ofNat 12, rest')
          else if e == 'n' then some ('\n', rest')
          else if e == 'r' then some ('\r', rest')
          else if e == 't' then some ('\t', rest')
          else if e == 'u' then
            match parseHex4 rest' with
            | some (n, rest'') =>
              if n < 55296 || 57343 < n then some (Char.ofNat n, rest'') else none
            | none => none
          else none
        match esc with
        | some (d, rest'') =>
          match parseStringBody fuel rest'' with
          | some (s, rem) => some (String.singleton d ++ s, rem)
          | none => none
        | none => none
    else if c.toNat < 32 then none
    else
      match parseStringBody fuel rest with
      | some (s, rem) => some (String.singleton c ++ s, rem)
      | none => none

/-- Digits of a JSON integer literal. -/
def takeDigits : List Char → List Char × List Char
  | c :: cs =>
    if c.isDigit then
      let p := takeDigits cs
      (c :: p.1, p.2)
    else ([], c :: cs)
  | [] => ([], [])

/-- Numeric value of a digit list. -/
def digitsToNat : List Char → Nat
  | [] => 0
  | ds => ds.foldl (fun acc c => acc * 10 + (c.toNat - 48)) 0

mutual

/-- One JSON value starting at `cs` (leading whitespace allowed), fuel-bounded.
Fraction/exponent number syntax is rejected: floating-point values are outside
the model (see the header note). -/
def parseVal : Nat → List Char → Option (Json × List Char)
  | 0, _ => none
  | fuel + 1, cs =>
    match skipWs cs with
    | [] => none
    | c :: rest =>
      if c == 'n' then
        match rest with
        | 'u' :: 'l' :: 'l' :: rem => some (Json.null, rem)
        | _ => none
      else if c == 't' then
        match rest with
        | 'r' :: 'u' :: 'e' :: rem => some (Json.bool true, rem)
        | _ => none
      else if c == 'f' then
        match rest with
        | 'a' :: 'l' :: 's' :: 'e' :: rem => some (Json.bool false, rem)
        | _ => none
      else if c == '"' then
        match parseStringBody (cs.length + 1) rest with
        | some (s, rem) => some (Json.str s, rem)
        | none => none
      else if c == '[' then
        match skipWs rest with
        | ']' :: rem => some (Json.arr [], rem)
        | _ => match parseArrItems fuel rest with
               | some (xs, rem) => some (Json.arr xs, rem)
               | none => none
      else if c == '\x7b' then
        match skipWs rest with
        | '\x7d' :: rem => some (Json.obj [], rem)
        | _ => match parseObjItems fuel rest with
               | some (kvs, rem) => some (Json.obj kvs, rem)
               | none => none
      else if c == '-' || c.isDigit then
        let body := if c == '-' then rest else c :: rest
        match takeDigits body with
        | ([], _) => none
        | (ds, rem) =>
          if ds.length > 1 && ds.headD '0' == '0' then none
          else
            match rem with
            | e :: _ =>
              if e == '.' || e == 'e' || e == 'E' then none
              else
                some (Json.num (if c == '-' then -(digitsToNat ds : Int) else (digitsToNat ds : Int)), rem)
            | [] => some (Json.num (if c == '-' then -(digitsToNat ds : Int) else (digitsToNat ds : Int)), [])
      else none

/-- One or more comma-separated array elements followed by `]`. -/
def parseArrItems : Nat → List Char → Option (List Json × List Char)
  | 0, _ => none
  | fuel + 1, cs =>
    match parseVal fuel cs with
    | none => none
    | some (v, rest) =>
      match skipWs rest with
      | ',' :: rest' =>
        match parseArrItems fuel rest' with
        | some (xs, rem) => some (v :: xs, rem)
        | none => none
      | ']' :: rem => some ([v], rem)
      | _ => none

/-- One or more comma-separated object members followed by the closing brace.
A repeated key overwrites the earlier binding, as in a Python dict. -/
def parseObjItems : Nat → List Char → Option (List (String × Json) × List Char)
  | 0, _ => none
  | fuel + 1, cs =>
    match skipWs cs with
    | '"' :: rest =>
      match parseStringBody (cs.length + 1) rest with
      | none => none
      | some (k, rest') =>
        match skipWs rest' with
        | ':' :: rest'' =>
          match parseVal fuel rest'' with
          | none => none
          | some (v, rest''') =>
            match skipWs rest''' with
            | ',' :: rest'''' =>
              match parseObjItems fuel rest'''' with
              | some (kvs, rem) => some (objCons k v kvs, rem)
              | none => none
            | '\x7d' :: rem => some ([(k, v)], rem)
            | _ => none
        | _ => none
    | _ => none

end

/-- `json.loads(s)`: parse one JSON document and require only trailing
whitespace after it; `none` models a raised `json.JSONDecodeError`. -/
def json_loads (s : String) : Option Json :=
  match parseVal (s.length + 16) s.data with
  | some (v, rest) => if skipWs rest = [] then some v else none
  | none => none

/-- Escaping of one character inside `json.dumps` string output
(`ensure_ascii=True`). -/
def dumpsCharEsc (c : Char) : String :=
  if c = '"' then "\\\""
  else if c = '\\' then "\\\\"
  else if c = '\n' then "\\n"
  else if c = '\r' then "\\r"
  else if c = '\t' then "\\t"
  else if c.toNat == 8 then "\\b"
  else if c.toNat == 12 then "\\f"
  else if c.toNat < 32 || 126 < c.toNat then
    "\\u" ++ hex2Lower (c.toNat / 256) ++ hex2Lower (c.toNat % 256)
  else String.singleton c

/-- `json.dumps` rendering of a string literal. -/
def dumpsStr (s : String) : String :=
  "\"" ++ String.join (s.data.map dumpsCharEsc) ++ "\""

mutual

/-- `json.dumps(v)` with the default separators `", "` and `": "`. -/
def json_dumps : Json → String
  | .null => "null"
  | .bool b => if b then "true" else "false"
  | .num n => toString n
  | .str s => dumpsStr s
  | .arr xs => "[" ++ String.intercalate ", " (dumpsList xs) ++ "]"
  | .obj kvs => "\x7b" ++ String.intercalate ", " (dumpsObj kvs) ++ "\x7d"

/-- `dumps` of each element of an array. -/
def dumpsList : List Json → List String
  | [] => []
  | x :: xs => json_dumps x :: dumpsList xs

/-- `dumps` of each `"key": value` member of an object. -/
def dumpsObj : List (String × Json) → List String
  | [] => []
  | (k, v) :: rest => (dumpsStr k ++ ": " ++ json_dumps v) :: dumpsObj rest

end

/-- An HTTP request as built by the clients: URL, effective method, optional
body (UTF-8 text), headers in insertion order, optional timeout. -/
structure Request where
  url : String
  method : String
  data : Option String
  headers : List (String × String)
  timeout : Option Nat
deriving Repr

/-- Outcome of `urllib.request.urlopen` on one request. -/
inductive HttpResult where
  | ok (body : String)
  | httpError (code : Nat) (body : String) (reason : String)
  | urlError (reason : String)
deriving Repr

/-- The network, as a pure oracle from the built request to its outcome. -/
abbrev Transport := Request → HttpResult

/-- `aion.exceptions.APIError`: an error returned by an external API
service. -/
structure APIError where
  service : String
  message : String
  status : Option Nat
deriving Repr

/-- The `RuntimeError` argument built by `APIError.__post_init__`: the
deterministic formatted message. -/
def APIError.formatted (e : APIError) : String :=
  let status_text :=
    match e.status with
    | some c => " (status: " ++ toString c ++ ")"
    | none => ""
  e.service ++ " API error: " ++ e.message ++ status_text

/-- A raised Python exception as visible at the client boundary. -/
inductive PyErr where
  | api (e : APIError)
  | valueError (msg : String)
  | jsonDecodeError
  | attributeError
deriving Repr

/-- `urllib.request.Request`'s effective method: an explicit override wins,
otherwise POST when a body is present and GET when not. -/
def effectiveMethod (override : Option String) (data : Option String) : String :=
  match override with
  | some m => m
  | none => if data.isSome then "POST" else "GET"

/-- `exc.read().decode("utf-8", errors="ignore") or exc.reason`: the error
body text when non-empty, the HTTP reason phrase otherwise. -/
def bodyOrReason (body reason : String) : String :=
  if body = "" then reason else body

/-- Python truthiness of an optional string (`None` and `""` are falsy). -/
def optTruthy : Option String → Bool
  | none => false
  | some s => s != ""

/-- `data.get(key, default)` on a decoded JSON value: `AttributeError` when
the value is not a dict. -/
def pyGetAttr (data : Json) (key : String) (default : Json) : Except PyErr Json :=
  match data with
  | .obj kvs => .ok (jGetD kvs key default)
  | _ => .error .attributeError

/-- A flexible Space response: decoded JSON or the raw body unchanged. -/
inductive SpaceResp where
  | json (v : Json)
  | raw (b : String)
deriving Repr

namespace cloudflare_client

/-- `aion.cloudflare_client.CloudflareClient` configuration. -/
structure CloudflareClient where
  token : String
  account_id : Option String := none
  base_url : String := "https://api.cloudflare.com/client/v4"

/-- `CloudflareClient._build_headers`. -/
def CloudflareClient.build_headers (c : CloudflareClient)
    (content_type : Option String := some "application/json")
    (accept : Option String := none) : List (String × String) :=
  [("Authorization", "Bearer " ++ c.token)]
    ++ (if optTruthy content_type then [("Content-Type", content_type.getD "")] else [])
    ++ (if optTruthy accept then [("Accept", accept.getD "")] else [])

/-- `CloudflareClient._parse_response`: decode the body as JSON, then check
the Cloudflare envelope's `success` flag; on a falsy flag fail with the
Python `str` of `data.get("errors") or "Unknown error"`. -/
def parse_response (payload : String) : Except PyErr Json :=
  match json_loads payload with
  | none => .error (.api ⟨"Cloudflare", "Invalid JSON response", none⟩)
  | some data =>
    match data with
    | .obj kvs =>
      if !(jGetD kvs "success" (.bool false)).truthy then
        let message :=
          match jLookup kvs "errors" with
          | some e => if e.truthy then pyStr e else "Unknown error"
          | none => "Unknown error"
        .error (.api ⟨"Cloudflare", message, none⟩)
      else .ok data
    | _ => .error .attributeError

/-- `CloudflareClient._request`: build headers, issue the call, parse the
envelope; HTTP failures carry the body-or-reason message and the status
code, transport failures carry no status. -/
def CloudflareClient.request (c : CloudflareClient) (transport : Transport)
    (url : String) (data : Option String := none) (method : Option String := none)
    (content_type : String := "application/json") :
    Except PyErr Json × List Request :=
  let headers := c.build_headers (some content_type) none
  let req : Request := ⟨url, effectiveMethod method data, data, headers, none⟩
  match transport req with
  | .ok body => (parse_response body, [req])
  | .httpError code body reason =>
      (.error (.api ⟨"Cloudflare", bodyOrReason body reason, some code⟩), [req])
  | .urlError reason => (.error (.api ⟨"Cloudflare", reason, none⟩), [req])

/-- `CloudflareClient.list_zones`. -/
def CloudflareClient.list_zones (c : CloudflareClient) (transport : Transport)
    (name : Option String := none) : Except PyErr Json × List Request :=
  let params : List (String × String) :=
    [("per_page", "50")] ++ (if optTruthy name then [("name", name.getD "")] else [])
  let query := urlencode params
  let url := if query ≠ "" then c.base_url ++ "/zones?" ++ query else c.base_url ++ "/zones"
  let p := c.request transport url
  (p.1.bind fun d => pyGetAttr d "result" (.arr []), p.2)

/-- `CloudflareClient.create_kv_namespace`. -/
def CloudflareClient.create_kv_namespace (c : CloudflareClient) (transport : Transport)
    (title : String) : Except PyErr Json × List Request :=
  if !optTruthy c.account_id then
    (.error (.valueError "account_id is required for KV operations"), [])
  else
    let payload := json_dumps (Json.obj [("title", Json.str title)])
    let url := c.base_url ++ "/accounts/" ++ c.account_id.getD "" ++ "/storage/kv/namespaces"
    let p := c.request transport url (some payload)
    (p.1.bind fun d => pyGetAttr d "result" (.obj []), p.2)

/-- `CloudflareClient.write_kv_value`: returns the whole envelope object. -/
def CloudflareClient.write_kv_value (c : CloudflareClient) (transport : Transport)
    (namespace_id key value : String) : Except PyErr Json × List Request :=
  if !optTruthy c.account_id then
    (.error (.valueError "account_id is required for KV operations"), [])
  else
    let encoded_key := pyQuote key ""
    let url := c.base_url ++ "/accounts/" ++ c.account_id.getD ""
        ++ "/storage/kv/namespaces/" ++ namespace_id ++ "/values/" ++ encoded_key
    c.request transport url (some value) (some "PUT") "text/plain"

/-- `CloudflareClient._require_account_id`. -/
def CloudflareClient.require_account_id (c : CloudflareClient) : Except PyErr String :=
  if !optTruthy c.account_id then
    .error (.valueError "account_id is required for this operation")
  else .ok (c.account_id.getD "")

/-- `CloudflareClient.list_worker_services`. -/
def CloudflareClient.list_worker_services (c : CloudflareClient) (transport : Transport) :
    Except PyErr Json × List Request :=
  match c.require_account_id with
  | .error e => (.error e, [])
  | .ok account_id =>
    let url := c.base_url ++ "/accounts/" ++ account_id ++ "/workers/services"
    let p := c.request transport url
    (p.1.bind fun d => pyGetAttr d "result" (.arr []), p.2)

/-- `CloudflareClient.get_worker_service`. -/
def CloudflareClient.get_worker_service (c : CloudflareClient) (transport : Transport)
    (service : String) : Except PyErr Json × List Request :=
  match c.require_account_id with
  | .error e => (.error e, [])
  | .ok account_id =>
    let url := c.base_url ++ "/accounts/" ++ account_id ++ "/workers/services/"
        ++ pyQuote service ""
    let p := c.request transport url
    (p.1.bind fun d => pyGetAttr d "result" (.obj []), p.2)

/-- `CloudflareClient.list_worker_service_environments`. -/
def CloudflareClient.list_worker_service_environments (c : CloudflareClient)
    (transport : Transport) (service : String) : Except PyErr Json × List Request :=
  match c.require_account_id with
  | .error e => (.error e, [])
  | .ok account_id =>
    let url := c.base_url ++ "/accounts/" ++ account_id ++ "/workers/services/"
        ++ pyQuote service "" ++ "/environments"
    let p := c.request transport url
    (p.1.bind fun d => pyGetAttr d "result" (.arr []), p.2)

/-- `CloudflareClient.get_worker_service_script`: plain-text download with an
`Accept: application/javascript` header and no Content-Type. -/
def CloudflareClient.get_worker_service_script (c : CloudflareClient)
    (transport : Transport) (service : String) (environment : String := "production") :
    Except PyErr String × List Request :=
  match c.require_account_id with
  | .error e => (.error e, [])
  | .ok account_id =>
    let url := c.base_url ++ "/accounts/" ++ account_id ++ "/workers/services/"
        ++ pyQuote service "" ++ "/environments/" ++ pyQuote environment "" ++ "/content"
    let headers := c.build_headers none (some "application/javascript")
    let req : Request := ⟨url, "GET", none, headers, none⟩
    match transport req with
    | .ok body => (.ok body, [req])
    | .httpError code body reason =>
        (.error (.api ⟨"Cloudflare", bodyOrReason body reason, some code⟩), [req])
    | .urlError reason => (.error (.api ⟨"Cloudflare", reason, none⟩), [req])

end cloudflare_client

/-- Paths as segment lists; a file system maps paths to file contents and
records which directories exist. -/
structure FS where
  files : List String → Option String
  dirs : List String → Bool

/-- `Path.mkdir(parents=True, exist_ok=True)`: create the directory and every
ancestor, leaving everything else unchanged. -/
def mkdirParents (fs : FS) (dir : List String) : FS :=
  { fs with dirs := fun q => fs.dirs q || q.isPrefixOf dir }

/-- `Path.write_bytes`: create or overwrite the file's contents. -/
def writeBytesFS (fs : FS) (p : List String) (content : String) : FS :=
  { fs with files := fun q => if q = p then some content else fs.files q }

/-- Result of `download_file`: the raw bytes, or the destination path when a
destination was supplied. -/
inductive DownloadResult where
  | bytes (b : String)
  | path (p : List String)
deriving Repr

namespace huggingface_client

/-- `aion.huggingface_client.HuggingFaceClient` configuration. -/
structure HuggingFaceClient where
  token : Option String := none
  base_url : String := "https://huggingface.co"

/-- `HuggingFaceClient._build_headers`: Accept always, bearer token when one
is configured. -/
def HuggingFaceClient.build_headers (c : HuggingFaceClient) : List (String × String) :=
  [("Accept", "application/json")]
    ++ (if optTruthy c.token then [("Authorization", "Bearer " ++ c.token.getD "")] else [])

/-- `HuggingFaceClient._get_json`: a `json.load` failure propagates as a raw
`json.JSONDecodeError`; HTTP failures become `APIError`s with the
body-or-reason message and the status code. -/
def HuggingFaceClient.get_json (c : HuggingFaceClient) (transport : Transport)
    (url : String) : Except PyErr Json × List Request :=
  let req : Request := ⟨url, "GET", none, c.build_headers, none⟩
  match transport req with
  | .ok body =>
    (match json_loads body with
     | some v => .ok v
     | none => .error .jsonDecodeError, [req])
  | .httpError code body reason =>
      (.error (.api ⟨"Hugging Face", bodyOrReason body reason, some code⟩), [req])
  | .urlError reason => (.error (.api ⟨"Hugging Face", reason, none⟩), [req])

/-- `HuggingFaceClient._get_bytes`: the body is returned as-is, with no JSON
decoding attempt. -/
def HuggingFaceClient.get_bytes (c : HuggingFaceClient) (transport : Transport)
    (url : String) : Except PyErr String × List Request :=
  let req : Request := ⟨url, "GET", none, c.build_headers, none⟩
  match transport req with
  | .ok body => (.ok body, [req])
  | .httpError code body reason =>
      (.error (.api ⟨"Hugging Face", bodyOrReason body reason, some code⟩), [req])
  | .urlError reason => (.error (.api ⟨"Hugging Face", reason, none⟩), [req])

/-- `HuggingFaceClient.list_models`. -/
def HuggingFaceClient.list_models (c : HuggingFaceClient) (transport : Transport)
    (author : Option String := none) (limit : Int := 10) :
    Except PyErr Json × List Request :=
  let params : List (String × String) :=
    [("limit", toString limit)] ++ (if optTruthy author then [("author", author.getD "")] else [])
  let query := urlencode params
  let url :=
    if query ≠ "" then c.base_url ++ "/api/models?" ++ query else c.base_url ++ "/api/models"
  c.get_json transport url

/-- `HuggingFaceClient.get_model_card`: the repo id is escaped as one opaque
path segment (`safe=""`). -/
def HuggingFaceClient.get_model_card (c : HuggingFaceClient) (transport : Transport)
    (model_id : String) : Except PyErr Json × List Request :=
  c.get_json transport (c.base_url ++ "/api/models/" ++ pyQuote model_id "")

/-- `HuggingFaceClient.download_file`: fetch the raw bytes; when a destination
is supplied, create its parent directories, write the bytes there and return
the path, otherwise return the bytes. -/
def HuggingFaceClient.download_file (c : HuggingFaceClient) (transport : Transport)
    (fs : FS) (repo_id filename : String) (revision : String := "main")
    (destination : Option (List String) := none) :
    Except PyErr DownloadResult × List Request × FS :=
  let normalized_filename := lstripSlash filename
  let url := c.base_url ++ "/" ++ pyQuote repo_id "" ++ "/resolve/"
      ++ pyQuote revision "" ++ "/" ++ pyQuote normalized_filename "/"
  match c.get_bytes transport url with
  | (.error e, reqs) => (.error e, reqs, fs)
  | (.ok content, reqs) =>
    match destination with
    | some destination_path =>
        let fs' := writeBytesFS (mkdirParents fs destination_path.dropLast)
            destination_path content
        (.ok (.path destination_path), reqs, fs')
    | none => (.ok (.bytes content), reqs, fs)

/-- `aion.huggingface_client.HuggingFaceSpaceClient` (canonical Hub URL
addressing) configuration. -/
structure HuggingFaceSpaceClient where
  space_id : String
  token : Option String := none
  base_url : String := "https://huggingface.co"

/-- `HuggingFaceSpaceClient._build_headers`. -/
def HuggingFaceSpaceClient.build_headers (c : HuggingFaceSpaceClient) :
    List (String × String) :=
  [("Accept", "application/json")]
    ++ (if optTruthy c.token then [("Authorization", "Bearer " ++ c.token.getD "")] else [])

/-- `HuggingFaceSpaceClient._build_url`: the space id keeps its slashes
(`safe="/"`), the path is appended when non-empty, the query only when at
least one parameter is present. -/
def HuggingFaceSpaceClient.build_url (c : HuggingFaceSpaceClient) (path : String)
    (params : Option (List (String × List String))) : String :=
  let encoded_space := pyQuote c.space_id "/"
  let normalized_path := lstripSlash path
  let url := c.base_url ++ "/spaces/" ++ encoded_space
  let url := if normalized_path ≠ "" then url ++ "/" ++ normalized_path else url
  if (match params with | some ps => !ps.isEmpty | none => false) then
    url ++ "?" ++ urlencodeDoseq (params.getD [])
  else url

/-- `HuggingFaceSpaceClient.request` (canonical addressing): rejects a
simultaneous JSON payload and raw body locally; attaches
`Content-Type: application/json` exactly when a JSON payload is present; an
empty response body yields `{}`; a body that fails to decode as JSON is
returned raw. -/
def HuggingFaceSpaceClient.request (c : HuggingFaceSpaceClient) (transport : Transport)
    (path : String) (method : String := "GET")
    (params : Option (List (String × List String)) := none)
    (json_payload : Option Json := none) (data : Option String := none)
    (timeout : Option Nat := none) : Except PyErr SpaceResp × List Request :=
  if json_payload.isSome && data.isSome then
    (.error (.valueError "Provide either json_payload or data, not both"), [])
  else
    let headers0 := c.build_headers
    let payload : Option String :=
      match json_payload with
      | some j => some (json_dumps j)
      | none => data
    let headers :=
      match json_payload with
      | some _ => headers0 ++ [("Content-Type", "application/json")]
      | none => headers0
    let url := c.build_url path params
    let req : Request := ⟨url, pyUpper method, payload, headers, timeout⟩
    match transport req with
    | .ok raw =>
      if raw = "" then (.ok (.json (.obj [])), [req])
      else
        match json_loads raw with
        | some v => (.ok (.json v), [req])
        | none => (.ok (.raw raw), [req])
    | .httpError code body reason =>
        (.error (.api ⟨"Hugging Face Space", bodyOrReason body reason, some code⟩), [req])
    | .urlError reason => (.error (.api ⟨"Hugging Face Space", reason, none⟩), [req])

/-- `HuggingFaceSpaceClient.get` (canonical addressing). -/
def HuggingFaceSpaceClient.get (c : HuggingFaceSpaceClient) (transport : Transport)
    (path : String) (params : Option (List (String × List String)) := none)
    (timeout : Option Nat := none) : Except PyErr SpaceResp × List Request :=
  c.request transport path "GET" params none none timeout

/-- `HuggingFaceSpaceClient.post` (canonical addressing). -/
def HuggingFaceSpaceClient.post (c : HuggingFaceSpaceClient) (transport : Transport)
    (path : String) (json_payload : Option Json := none) (data : Option String := none)
    (timeout : Option Nat := none) : Except PyErr SpaceResp × List Request :=
  c.request transport path "POST" none json_payload data timeout

end huggingface_client

namespace spaces_client

/-- `aion.spaces_client.HuggingFaceSpaceClient` (direct `*.hf.space`
subdomain addressing) configuration. -/
structure HuggingFaceSpaceClient where
  space_id : String
  token : Option String := none
  domain : String := "hf.space"
  timeout : Option Nat := some 30

/-- `HuggingFaceSpaceClient._build_url`: slashes of the space id become
dashes in the subdomain. -/
def HuggingFaceSpaceClient.build_url (c : HuggingFaceSpaceClient) (path : String) : String :=
  let slug := String.mk (c.space_id.data.map fun ch => if ch == '/' then '-' else ch)
  let normalized_path := "/" ++ lstripSlash path
  "https://" ++ slug ++ "." ++ c.domain ++ normalized_path

/-- `HuggingFaceSpaceClient._headers`. -/
def HuggingFaceSpaceClient.headers (c : HuggingFaceSpaceClient)
    (content_type : Option String := none) : List (String × String) :=
  [("Accept", "application/json")]
    ++ (if optTruthy content_type then [("Content-Type", content_type.getD "")] else [])
    ++ (if optTruthy c.token then [("Authorization", "Bearer " ++ c.token.getD "")] else [])

/-- `HuggingFaceSpaceClient._request` (subdomain addressing): when JSON is
expected, an empty body yields `None` and a body that fails to decode raises
a structured `Invalid JSON response` error; raw bytes are returned only when
`expect_json` is false. -/
def HuggingFaceSpaceClient.request (c : HuggingFaceSpaceClient) (transport : Transport)
    (url : String) (method : String) (data : Option String := none)
    (content_type : Option String := none) (expect_json : Bool := true) :
    Except PyErr SpaceResp × List Request :=
  let hs := c.headers content_type
  let req : Request := ⟨url, method, data, hs, c.timeout⟩
  match transport req with
  | .httpError code body reason =>
      (.error (.api ⟨"Hugging Face Space", bodyOrReason body reason, some code⟩), [req])
  | .urlError reason => (.error (.api ⟨"Hugging Face Space", reason, none⟩), [req])
  | .ok raw =>
    if !expect_json then (.ok (.raw raw), [req])
    else if raw = "" then (.ok (.json .null), [req])
    else
      match json_loads raw with
      | some v => (.ok (.json v), [req])
      | none => (.error (.api ⟨"Hugging Face Space", "Invalid JSON response", none⟩), [req])

/-- `HuggingFaceSpaceClient.get` (subdomain addressing). -/
def HuggingFaceSpaceClient.get (c : HuggingFaceSpaceClient) (transport : Transport)
    (path : String) (params : Option (List (String × List String)) := none) :
    Except PyErr SpaceResp × List Request :=
  let url0 := c.build_url path
  let url :=
    if (match params with | some ps => !ps.isEmpty | none => false) then
      url0 ++ "?" ++ urlencodeDoseq (params.getD [])
    else url0
  c.request transport url "GET"

/-- `HuggingFaceSpaceClient.post` (subdomain addressing): always sends a JSON
payload with `Content-Type: application/json`. -/
def HuggingFaceSpaceClient.post (c : HuggingFaceSpaceClient) (transport : Transport)
    (path : String) (payload : Json) : Except PyErr SpaceResp × List Request :=
  let url := c.build_url path
  let data := json_dumps payload
  c.request transport url "POST" (some data) (some "application/json")

end spaces_client

/-- Claim C4: constructing the structured error always produces the
deterministic formatted message "<service> API error: <message>", with
" (status: <code>)" appended exactly when a status code is present and
omitted when it is absent. -/
theorem C4_error_message_format (service message : String) (code : Nat) :
    APIError.formatted ⟨service, message, some code⟩
      = service ++ " API error: " ++ message ++ (" (status: " ++ toString code ++ ")")
    ∧ APIError.formatted ⟨service, message, none⟩
      = service ++ " API error: " ++ message := by
  refine ⟨rfl, ?_⟩
  simp [APIError.formatted]

/-- Claim C2: with no account identifier configured, each of the six
account-scoped Cloudflare operations fails with a local `ValueError`
precondition failure — a constructor distinct from the structured
`APIError` — and issues zero network requests. -/
theorem C2_account_scoped_ops_precondition
    (token base title ns key value svc env : String) (tr : Transport) :
    (cloudflare_client.CloudflareClient.create_kv_namespace ⟨token, none, base⟩ tr title
        = (.error (.valueError "account_id is required for KV operations"), []))
    ∧ (cloudflare_client.CloudflareClient.write_kv_value ⟨token, none, base⟩ tr ns key value
        = (.error (.valueError "account_id is required for KV operations"), []))
    ∧ (cloudflare_client.CloudflareClient.list_worker_services ⟨token, none, base⟩ tr
        = (.error (.valueError "account_id is required for this operation"), []))
    ∧ (cloudflare_client.CloudflareClient.get_worker_service ⟨token, none, base⟩ tr svc
        = (.error (.valueError "account_id is required for this operation"), []))
    ∧ (cloudflare_client.CloudflareClient.list_worker_service_environments
          ⟨token, none, base⟩ tr svc
        = (.error (.valueError "account_id is required for this operation"), []))
    ∧ (cloudflare_client.CloudflareClient.get_worker_service_script ⟨token, none, base⟩ tr svc env
        = (.error (.valueError "account_id is required for this operation"), []))
    ∧ (∀ (msg : String) (e : APIError), PyErr.valueError msg ≠ PyErr.api e) := by
  refine ⟨rfl, rfl, rfl, rfl, rfl, rfl, ?_⟩
  intro msg e h
  exact PyErr.noConfusion h

/-- Claim C10: the canonical-URL Space client's `request` raises a local
`ValueError` and issues no network call when both a JSON payload and a raw
data body are supplied, for every path, method, params and timeout. -/
theorem C10_payload_conflict_valueerror
    (sid base path method d : String) (tok : Option String)
    (params : Option (List (String × List String))) (j : Json)
    (timeout : Option Nat) (tr : Transport) :
    huggingface_client.HuggingFaceSpaceClient.request ⟨sid, tok, base⟩ tr path method
        params (some j) (some d) timeout
      = (.error (.valueError "Provide either json_payload or data, not both"), []) := rfl

/-- The single request `_get_json` issues, whatever the transport answers. -/
theorem get_json_reqs (c : huggingface_client.HuggingFaceClient) (tr : Transport) (url : String) :
    (c.get_json tr url).2 = [⟨url, "GET", none, c.build_headers, none⟩] := by
  simp only [huggingface_client.HuggingFaceClient.get_json]
  cases tr ⟨url, "GET", none, c.build_headers, none⟩ <;> rfl

/-- Claim C5: for repo id "demo/model" the model-metadata URL escapes the
slash and ends with "/api/models/demo%2Fmodel", while for space id
"demo/space" the canonical Space invocation URL keeps the slash as a path
separator and contains "/spaces/demo/space/". -/
theorem C5_url_slash_escaping (tr : Transport) :
    ((huggingface_client.HuggingFaceClient.get_model_card
        ⟨none, "https://huggingface.co"⟩ tr "demo/model").2.map Request.url
      = ["https://huggingface.co/api/models/demo%2Fmodel"])
    ∧ ("/api/models/demo%2Fmodel".data.isSuffixOf
        "https://huggingface.co/api/models/demo%2Fmodel".data = true)
    ∧ (huggingface_client.HuggingFaceSpaceClient.build_url
        ⟨"demo/space", none, "https://huggingface.co"⟩ "api/predict" none
      = "https://huggingface.co/spaces/demo/space/api/predict")
    ∧ (listIsInfix "/spaces/demo/space/".data
        "https://huggingface.co/spaces/demo/space/api/predict".data = true) := by
  refine ⟨?_, rfl, rfl, rfl⟩
  rw [huggingface_client.HuggingFaceClient.get_model_card, get_json_reqs]
  rfl

/-- Claim C3: on a non-2xx HTTP response, every request helper of the four
clients fails with a structured error whose status is the response's numeric
code and whose message is the body text when non-empty, otherwise the reason
phrase: the Cloudflare JSON helper and script download, both Hugging Face
Hub helpers, and both Space clients' request helpers. -/
theorem C3_http_error_status_and_message
    (code : Nat) (body reason : String)
    (cftok base url svc env sid dom path method : String)
    (tok : Option String) (d : Option String) (m : Option String)
    (ct : String) (sct : Option String)
    (params : Option (List (String × List String))) (timeout : Option Nat) :
    ((cloudflare_client.CloudflareClient.request ⟨cftok, some "acct", base⟩
        (fun _ => .httpError code body reason) url d m ct).1
      = .error (.api ⟨"Cloudflare", if body = "" then reason else body, some code⟩))
    ∧ ((cloudflare_client.CloudflareClient.get_worker_service_script ⟨cftok, some "acct", base⟩
        (fun _ => .httpError code body reason) svc env).1
      = .error (.api ⟨"Cloudflare", if body = "" then reason else body, some code⟩))
    ∧ ((huggingface_client.HuggingFaceClient.get_json ⟨tok, base⟩
        (fun _ => .httpError code body reason) url).1
      = .error (.api ⟨"Hugging Face", if body = "" then reason else body, some code⟩))
    ∧ ((huggingface_client.HuggingFaceClient.get_bytes ⟨tok, base⟩
        (fun _ => .httpError code body reason) url).1
      = .error (.api ⟨"Hugging Face", if body = "" then reason else body, some code⟩))
    ∧ ((huggingface_client.HuggingFaceSpaceClient.request ⟨sid, tok, base⟩
        (fun _ => .httpError code body reason) path method params none d timeout).1
      = .error (.api ⟨"Hugging Face Space", if body = "" then reason else body, some code⟩))
    ∧ ((spaces_client.HuggingFaceSpaceClient.request ⟨sid, tok, dom, timeout⟩
        (fun _ => .httpError code body reason) url method d sct true).1
      = .error (.api ⟨"Hugging Face Space", if body = "" then reason else body, some code⟩)) :=
  ⟨rfl, rfl, rfl, rfl, rfl, rfl⟩

/-- Claim C8: `download_file` against a transport returning body `b` performs
no JSON decoding — it writes exactly `b` to the destination path (creating
the parent directories and overwriting any existing file there), returns the
destination path, and leaves every other file unchanged; with no destination
it returns `b` itself. -/
theorem C8_download_file_writes_bytes
    (tok : Option String) (base repo_id filename revision : String)
    (b : String) (dest : List String) (fs : FS) :
    ((huggingface_client.HuggingFaceClient.download_file ⟨tok, base⟩ (fun _ => .ok b) fs
        repo_id filename revision (some dest)).1 = .ok (.path dest))
    ∧ ((huggingface_client.HuggingFaceClient.download_file ⟨tok, base⟩ (fun _ => .ok b) fs
        repo_id filename revision (some dest)).2.2.files dest = some b)
    ∧ (∀ q, q ≠ dest →
        (huggingface_client.HuggingFaceClient.download_file ⟨tok, base⟩ (fun _ => .ok b) fs
          repo_id filename revision (some dest)).2.2.files q = fs.files q)
    ∧ (∀ q, (huggingface_client.HuggingFaceClient.download_file ⟨tok, base⟩ (fun _ => .ok b) fs
          repo_id filename revision (some dest)).2.2.dirs q
        = (fs.dirs q || q.isPrefixOf dest.dropLast))
    ∧ ((huggingface_client.HuggingFaceClient.download_file ⟨tok, base⟩ (fun _ => .ok b) fs
        repo_id filename revision none).1 = .ok (.bytes b)) := by
  refine ⟨rfl, ?_, ?_, ?_, rfl⟩
  · simp [huggingface_client.HuggingFaceClient.download_file,
      huggingface_client.HuggingFaceClient.get_bytes, writeBytesFS, mkdirParents]
  · intro q hq
    simp [huggingface_client.HuggingFaceClient.download_file,
      huggingface_client.HuggingFaceClient.get_bytes, writeBytesFS, mkdirParents, hq]
  · intro q
    rfl

/-- Witness for C8: a concrete download of `b"content"` to
`tmp/model/config.json` on an initially empty file system. -/
theorem C8_download_file_writes_bytes_witness :
    ((huggingface_client.HuggingFaceClient.download_file ⟨none, "https://huggingface.co"⟩
        (fun _ => .ok "content") ⟨fun _ => none, fun _ => false⟩
        "demo/model" "config.json" "main" (some ["tmp", "model", "config.json"])).1
      = .ok (.path ["tmp", "model", "config.json"]))
    ∧ ((huggingface_client.HuggingFaceClient.download_file ⟨none, "https://huggingface.co"⟩
        (fun _ => .ok "content") ⟨fun _ => none, fun _ => false⟩
        "demo/model" "config.json" "main" (some ["tmp", "model", "config.json"])).2.2.files
        ["tmp", "model", "config.json"] = some "content")
    ∧ ((huggingface_client.HuggingFaceClient.download_file ⟨none, "https://huggingface.co"⟩
        (fun _ => .ok "content") ⟨fun _ => none, fun _ => false⟩
        "demo/model" "config.json" "main" (some ["tmp", "model", "config.json"])).2.2.dirs
        ["tmp", "model"] = true) := by
  have h := C8_download_file_writes_bytes none "https://huggingface.co" "demo/model"
    "config.json" "main" "content" ["tmp", "model", "config.json"]
    ⟨fun _ => none, fun _ => false⟩
  refine ⟨h.1, h.2.1, ?_⟩
  rw [h.2.2.2.1 ["tmp", "model"]]
  decide

/-- Claim C1 counterexample: in the envelope decoded from
`{"success": false, "errors": []}` the `errors` field is present and its
serialization is "[]", yet the structured error's message is
"Unknown error" — so the fallback is not used only when the field is
absent. -/
theorem C1_counterexample :
    ((cloudflare_client.CloudflareClient.request ⟨"t", some "a", "b"⟩
        (fun _ => .ok "\x7b\"success\": false, \"errors\": []\x7d") "u" none none
        "application/json").1
      = .error (.api ⟨"Cloudflare", "Unknown error", none⟩))
    ∧ (json_loads "\x7b\"success\": false, \"errors\": []\x7d"
      = some (Json.obj [("success", Json.bool false), ("errors", Json.arr [])]))
    ∧ (jLookup [("success", Json.bool false), ("errors", Json.arr [])] "errors"
      = some (Json.arr []))
    ∧ (pyStr (Json.arr []) = "[]")
    ∧ (("Unknown error" : String) ≠ "[]") := by
  refine ⟨rfl, rfl, rfl, rfl, ?_⟩
  decide

/-- Claim C1 (amended): for every 2xx Cloudflare response whose decoded
envelope object has `success` false or absent, the call fails with a
structured status-less error, and the error's message is the Python
serialization of the `errors` field when that field is present and truthy
(non-empty), and "Unknown error" when the field is absent *or falsy* (for
example the empty array). -/
theorem C1_envelope_failure_message
    (cftok base url ct body : String) (acct : Option String) (d m : Option String)
    (kvs : List (String × Json))
    (hp : json_loads body = some (Json.obj kvs))
    (hs : jLookup kvs "success" = none ∨ jLookup kvs "success" = some (Json.bool false)) :
    (cloudflare_client.CloudflareClient.request ⟨cftok, acct, base⟩
        (fun _ => .ok body) url d m ct).1
      = .error (.api ⟨"Cloudflare",
          (match jLookup kvs "errors" with
           | some e => if e.truthy then pyStr e else "Unknown error"
           | none => "Unknown error"), none⟩) := by
  simp only [cloudflare_client.CloudflareClient.request, cloudflare_client.parse_response, hp]
  rcases hs with hs | hs <;> simp [jGetD, hs, Json.truthy]

/-- Witness for C1 at a concrete failing envelope with a non-empty `errors`
field, whose Python serialization is `['e1']`. -/
theorem C1_envelope_failure_message_witness :
    (cloudflare_client.CloudflareClient.request ⟨"t", some "a", "b"⟩
        (fun _ => .ok "\x7b\"success\": false, \"errors\": [\"e1\"]\x7d") "u" none none
        "application/json").1
      = .error (.api ⟨"Cloudflare", "['e1']", none⟩) := by
  have h := C1_envelope_failure_message "t" "b" "u" "application/json"
    "\x7b\"success\": false, \"errors\": [\"e1\"]\x7d" (some "a") none none
    [("success", Json.bool false), ("errors", Json.arr [Json.str "e1"])] rfl (Or.inr rfl)
  rw [h]
  rfl

/-- Claim C6 counterexample: for the subdomain Space client, a response body
that does not parse as JSON ("binary") is not returned as raw bytes — `get`
raises the structured "Invalid JSON response" error instead. -/
theorem C6_counterexample :
    (json_loads "binary" = none)
    ∧ ((spaces_client.HuggingFaceSpaceClient.get ⟨"demo/space", none, "hf.space", some 30⟩
        (fun _ => .ok "binary") "artifact.tar.gz").1
      = .error (.api ⟨"Hugging Face Space", "Invalid JSON response", none⟩)) :=
  ⟨rfl, rfl⟩

/-- Claim C6 (amended): on a non-empty response body that does not decode as
JSON, the canonical-URL Space client's request/get/post return the raw body
unchanged, while the subdomain Space client raises a structured
"Invalid JSON response" error whenever JSON is expected (its default, used
by its get and post), returning the raw body only when `expect_json` is
false. -/
theorem C6_non_json_body_handling
    (sid base dom url path method raw : String) (tok : Option String)
    (params : Option (List (String × List String)))
    (d sct : Option String) (timeout : Option Nat) (payload : Json)
    (hraw : raw ≠ "") (hj : json_loads raw = none) :
    ((huggingface_client.HuggingFaceSpaceClient.request ⟨sid, tok, base⟩
        (fun _ => .ok raw) path method params none d timeout).1 = .ok (.raw raw))
    ∧ ((huggingface_client.HuggingFaceSpaceClient.get ⟨sid, tok, base⟩
        (fun _ => .ok raw) path params timeout).1 = .ok (.raw raw))
    ∧ ((huggingface_client.HuggingFaceSpaceClient.post ⟨sid, tok, base⟩
        (fun _ => .ok raw) path none d timeout).1 = .ok (.raw raw))
    ∧ ((spaces_client.HuggingFaceSpaceClient.request ⟨sid, tok, dom, timeout⟩
        (fun _ => .ok raw) url method d sct true).1
      = .error (.api ⟨"Hugging Face Space", "Invalid JSON response", none⟩))
    ∧ ((spaces_client.HuggingFaceSpaceClient.get ⟨sid, tok, dom, timeout⟩
        (fun _ => .ok raw) path params).1
      = .error (.api ⟨"Hugging Face Space", "Invalid JSON response", none⟩))
    ∧ ((spaces_client.HuggingFaceSpaceClient.post ⟨sid, tok, dom, timeout⟩
        (fun _ => .ok raw) path payload).1
      = .error (.api ⟨"Hugging Face Space", "Invalid JSON response", none⟩))
    ∧ ((spaces_client.HuggingFaceSpaceClient.request ⟨sid, tok, dom, timeout⟩
        (fun _ => .ok raw) url method d sct false).1 = .ok (.raw raw)) := by
  refine ⟨?_, ?_, ?_, ?_, ?_, ?_, ?_⟩ <;>
    simp [huggingface_client.HuggingFaceSpaceClient.request,
      huggingface_client.HuggingFaceSpaceClient.get,
      huggingface_client.HuggingFaceSpaceClient.post,
      spaces_client.HuggingFaceSpaceClient.request,
      spaces_client.HuggingFaceSpaceClient.get,
      spaces_client.HuggingFaceSpaceClient.post, hraw, hj]

/-- Witness for C6 at the concrete non-JSON body "binary". -/
theorem C6_non_json_body_handling_witness :
    ((huggingface_client.HuggingFaceSpaceClient.request ⟨"demo/space", none, "https://huggingface.co"⟩
        (fun _ => .ok "binary") "artifact.tar.gz" "GET" none none none none).1
      = .ok (.raw "binary"))
    ∧ ((spaces_client.HuggingFaceSpaceClient.request ⟨"demo/space", none, "hf.space", some 30⟩
        (fun _ => .ok "binary") "https://demo-space.hf.space/artifact.tar.gz" "GET"
        none none true).1
      = .error (.api ⟨"Hugging Face Space", "Invalid JSON response", none⟩)) := by
  have h := C6_non_json_body_handling "demo/space" "https://huggingface.co" "hf.space"
    "https://demo-space.hf.space/artifact.tar.gz" "artifact.tar.gz" "GET" "binary"
    none none none none none Json.null (by decide) rfl
  exact ⟨h.1, h.2.2.2.1⟩

/-- Claim C7 counterexample: the Cloudflare client's `list_zones` issues a
request with no body whose headers nevertheless carry
`Content-Type: application/json`. -/
theorem C7_counterexample :
    ((cloudflare_client.CloudflareClient.list_zones
        ⟨"abc123", none, "https://api.cloudflare.com/client/v4"⟩
        (fun _ => .ok "\x7b\"success\": true, \"result\": []\x7d")).2
      = [⟨"https://api.cloudflare.com/client/v4/zones?per_page=50", "GET", none,
          [("Authorization", "Bearer abc123"), ("Content-Type", "application/json")], none⟩])
    ∧ ((cloudflare_client.CloudflareClient.list_zones
        ⟨"abc123", none, "https://api.cloudflare.com/client/v4"⟩
        (fun _ => .ok "\x7b\"success\": true, \"result\": []\x7d")).2.map Request.data
      = [none])
    ∧ (("Content-Type", "application/json")
        ∈ [("Authorization", "Bearer abc123"), ("Content-Type", "application/json")]) := by
  refine ⟨rfl, rfl, ?_⟩
  simp

/-- Claim C7 (amended): for every POST issued by a client the
`Content-Type: application/json` header is attached exactly when a JSON body
is present; for every Space-client request without a body no
`Content-Type: application/json` header is attached; the Cloudflare client,
however, attaches `Content-Type: application/json` even to requests without
a body, as the body-less GET of `list_zones` shows. -/
theorem C7_content_type_header
    (sid base path method dd : String) (j payload : Json)
    (params : Option (List (String × List String))) (timeout : Option Nat)
    (cftok cfbase title : String) :
    -- canonical Space request with a JSON payload: header attached, body is the dumped JSON
    ((huggingface_client.HuggingFaceSpaceClient.request ⟨sid, none, base⟩ (fun _ => .ok "")
        path method params (some j) none timeout).2.map (fun r => (r.data, r.headers))
      = [(some (json_dumps j),
          [("Accept", "application/json"), ("Content-Type", "application/json")])])
    -- canonical Space request with a raw body (covers a POST without a JSON body): no header
    ∧ ((huggingface_client.HuggingFaceSpaceClient.request ⟨sid, none, base⟩ (fun _ => .ok "")
        path method params none (some dd) timeout).2.map (fun r => (r.data, r.headers))
      = [(some dd, [("Accept", "application/json")])])
    -- canonical Space request without a body: no header
    ∧ ((huggingface_client.HuggingFaceSpaceClient.request ⟨sid, none, base⟩ (fun _ => .ok "")
        path method params none none timeout).2.map (fun r => (r.data, r.headers))
      = [(none, [("Accept", "application/json")])])
    -- subdomain Space post: JSON body present and header attached
    ∧ ((spaces_client.HuggingFaceSpaceClient.post ⟨sid, none, "hf.space", timeout⟩
        (fun _ => .ok "\x7b\x7d") path payload).2.map (fun r => (r.method, r.data, r.headers))
      = [("POST", some (json_dumps payload),
          [("Accept", "application/json"), ("Content-Type", "application/json")])])
    -- subdomain Space get: no body and no header
    ∧ ((spaces_client.HuggingFaceSpaceClient.get ⟨sid, none, "hf.space", timeout⟩
        (fun _ => .ok "\x7b\x7d") path params).2.map (fun r => (r.method, r.data, r.headers))
      = [("GET", none, [("Accept", "application/json")])])
    -- Cloudflare POST with a JSON body: header attached
    ∧ ((cloudflare_client.CloudflareClient.create_kv_namespace ⟨cftok, some "acct", cfbase⟩
        (fun _ => .ok "\x7b\"success\": true, \"result\": \x7b\x7d\x7d") title).2.map
        (fun r => (r.method, r.data, r.headers))
      = [("POST", some (json_dumps (Json.obj [("title", Json.str title)])),
          [("Authorization", "Bearer " ++ cftok), ("Content-Type", "application/json")])])
    -- Cloudflare body-less GET: header nevertheless attached (the divergence)
    ∧ ((cloudflare_client.CloudflareClient.list_zones ⟨cftok, none, cfbase⟩
        (fun _ => .ok "\x7b\"success\": true, \"result\": []\x7d")).2.map
        (fun r => (r.method, r.data, r.headers))
      = [("GET", none, [("Authorization", "Bearer " ++ cftok),
          ("Content-Type", "application/json")])]) :=
  ⟨rfl, rfl, rfl, rfl, rfl, rfl, rfl⟩

/-- Claim C9: with the transport returning a Cloudflare envelope — an object
whose `success` field is a boolean — a successful `write_kv_value` returns
the whole envelope object and its `success` field is true, and an envelope
whose `success` field is not true never reaches the caller as a return
value. -/
theorem C9_write_kv_envelope_success
    (cftok acct base ns key value body : String) (kvs : List (String × Json)) (b : Bool)
    (ha : acct ≠ "")
    (hp : json_loads body = some (Json.obj kvs))
    (hs : jLookup kvs "success" = some (Json.bool b)) :
    (b = true →
      (cloudflare_client.CloudflareClient.write_kv_value ⟨cftok, some acct, base⟩
          (fun _ => .ok body) ns key value).1 = .ok (Json.obj kvs))
    ∧ (∀ r, (cloudflare_client.CloudflareClient.write_kv_value ⟨cftok, some acct, base⟩
          (fun _ => .ok body) ns key value).1 = .ok r →
        r = Json.obj kvs ∧ jLookup kvs "success" = some (Json.bool true)) := by
  have hopt : optTruthy (some acct) = true := by simp [optTruthy, ha]
  constructor
  · intro hb
    subst hb
    simp [cloudflare_client.CloudflareClient.write_kv_value, hopt,
      cloudflare_client.CloudflareClient.request, cloudflare_client.parse_response,
      hp, jGetD, hs, Json.truthy]
  · intro r hr
    cases b with
    | true =>
      simp [cloudflare_client.CloudflareClient.write_kv_value, hopt,
        cloudflare_client.CloudflareClient.request, cloudflare_client.parse_response,
        hp, jGetD, hs, Json.truthy] at hr
      exact ⟨hr.symm, hs⟩
    | false =>
      simp [cloudflare_client.CloudflareClient.write_kv_value, hopt,
        cloudflare_client.CloudflareClient.request, cloudflare_client.parse_response,
        hp, jGetD, hs, Json.truthy] at hr

/-- Witness for C9: a concrete successful KV write returns the whole
envelope, whose `success` field is true. -/
theorem C9_write_kv_envelope_success_witness :
    (cloudflare_client.CloudflareClient.write_kv_value ⟨"token", some "account", "base"⟩
        (fun _ => .ok "\x7b\"success\": true, \"result\": \x7b\"id\": \"ns\"\x7d\x7d")
        "ns1" "key" "value").1
      = .ok (Json.obj [("success", Json.bool true),
          ("result", Json.obj [("id", Json.str "ns")])]) :=
  (C9_write_kv_envelope_success "token" "account" "base" "ns1" "key" "value"
    "\x7b\"success\": true, \"result\": \x7b\"id\": \"ns\"\x7d\x7d"
    [("success", Json.bool true), ("result", Json.obj [("id", Json.str "ns")])] true
    (by decide) rfl rfl).1 rfl

/-- Witness for C4 at a concrete error value. -/
theorem C4_error_message_format_witness :
    APIError.formatted ⟨"Hugging Face", "boom", some 500⟩
      = "Hugging Face API error: boom (status: 500)"
    ∧ APIError.formatted ⟨"Cloudflare", "x", none⟩ = "Cloudflare API error: x" :=
  ⟨(C4_error_message_format "Hugging Face" "boom" 500).1,
   (C4_error_message_format "Cloudflare" "x" 0).2⟩

/-- Witness for C2 at a concrete configuration without an account id. -/
theorem C2_account_scoped_ops_precondition_witness :
    cloudflare_client.CloudflareClient.create_kv_namespace ⟨"token", none, "base"⟩
        (fun _ => .ok "") "demo"
      = (.error (.valueError "account_id is required for KV operations"), []) :=
  (C2_account_scoped_ops_precondition "token" "base" "demo" "ns" "key" "v" "svc" "env"
    (fun _ => .ok "")).1

/-- Witness for C3 at a concrete 403 response with body "denied". -/
theorem C3_http_error_status_and_message_witness :
    (cloudflare_client.CloudflareClient.request ⟨"t", some "acct", "b"⟩
        (fun _ => .httpError 403 "denied" "Forbidden") "u" none none "application/json").1
      = .error (.api ⟨"Cloudflare", "denied", some 403⟩)
    ∧ (huggingface_client.HuggingFaceClient.get_json ⟨none, "b"⟩
        (fun _ => .httpError 404 "" "Not Found") "u").1
      = .error (.api ⟨"Hugging Face", "Not Found", some 404⟩) :=
  ⟨(C3_http_error_status_and_message 403 "denied" "Forbidden" "t" "b" "u" "svc" "env" "sid"
      "dom" "p" "GET" none none none "application/json" none none none).1,
   (C3_http_error_status_and_message 404 "" "Not Found" "t" "b" "u" "svc" "env" "sid"
      "dom" "p" "GET" none none none "application/json" none none none).2.2.1⟩

/-- Witness for C5 at a concrete transport. -/
theorem C5_url_slash_escaping_witness :
    (huggingface_client.HuggingFaceClient.get_model_card
        ⟨none, "https://huggingface.co"⟩ (fun _ => .ok "\x7b\x7d") "demo/model").2.map Request.url
      = ["https://huggingface.co/api/models/demo%2Fmodel"] :=
  (C5_url_slash_escaping (fun _ => .ok "\x7b\x7d")).1

/-- Witness for C7 at concrete arguments: a JSON-payload POST carries the
header, the subdomain get without a body does not. -/
theorem C7_content_type_header_witness :
    ((huggingface_client.HuggingFaceSpaceClient.request ⟨"demo/space", none, "https://huggingface.co"⟩
        (fun _ => .ok "") "api/predict" "POST" none (some (Json.obj [])) none none).2.map
        (fun r => (r.data, r.headers))
      = [(some (json_dumps (Json.obj [])),
          [("Accept", "application/json"), ("Content-Type", "application/json")])])
    ∧ ((spaces_client.HuggingFaceSpaceClient.get ⟨"demo/space", none, "hf.space", none⟩
        (fun _ => .ok "\x7b\x7d") "health" none).2.map (fun r => (r.method, r.data, r.headers))
      = [("GET", none, [("Accept", "application/json")])]) :=
  ⟨(C7_content_type_header "demo/space" "https://huggingface.co" "api/predict" "POST" "dd"
      (Json.obj []) Json.null none none "t" "b" "demo").1,
   (C7_content_type_header "demo/space" "https://huggingface.co" "health" "GET" "dd"
      (Json.obj []) Json.null none none "t" "b" "demo").2.2.2.2.1⟩

/-- Witness for C10 at concrete arguments. -/
theorem C10_payload_conflict_valueerror_witness :
    huggingface_client.HuggingFaceSpaceClient.request
        ⟨"demo/space", none, "https://huggingface.co"⟩ (fun _ => .ok "") "api/predict" "POST"
        none (some (Json.obj [])) (some "raw") none
      = (.error (.valueError "Provide either json_payload or data, not both"), []) :=
  C10_payload_conflict_valueerror "demo/space" "https://huggingface.co" "api/predict" "POST"
    "raw" none none (Json.obj []) none (fun _ => .ok "")
